import Mathlib

/-!
Verification development for the payments-copilot pipeline: a shallow
embedding of the extractor, rule engine, SR2026 overlay engine, failure
classifier, XSD wrapper and input router, with theorems about the
properties the design document states.

Python dictionaries with a fixed key set become Lean structures; rule
dictionaries become a structure of optional fields, with `.get` defaults
applied exactly where the source applies them.  Fallible code (the lxml
`etree.fromstring` call, which raises on malformed XML) is embedded with
`Except`: an uncaught Python exception is an `Except.error` that the
callers propagate exactly where the source has no `try/except`.
-/

set_option autoImplicit false
set_option maxRecDepth 16000

namespace Payments

/-! ### Python string primitives (modelled from CPython `str` methods) -/

/-- The characters Python `str.strip()` removes (ASCII whitespace). -/
def pyWhitespace (c : Char) : Bool :=
  c = ' ' || c = '\t' || c = '\n' || c = '\r' || c = '\x0b' || c = '\x0c'

def stripList (l : List Char) : List Char :=
  ((l.dropWhile pyWhitespace).reverse.dropWhile pyWhitespace).reverse

/-- Python `str.strip()`. -/
def pyStrip (s : String) : String := ⟨stripList s.data⟩

/-- Python `str.lstrip()`. -/
def pyLstrip (s : String) : String := ⟨s.data.dropWhile pyWhitespace⟩

/-- Python `str.lower()` (ASCII case fold suffices for this code base). -/
def pyLower (s : String) : String := ⟨s.data.map Char.toLower⟩

/-- Whether the pattern list occurs as a contiguous run inside the list. -/
def listContainsSub (p : List Char) : List Char → Bool
  | [] => p.isEmpty
  | c :: t => p.isPrefixOf (c :: t) || listContainsSub p t

/-- Python `pat in s` (substring containment). -/
def strContains (s pat : String) : Bool := listContainsSub pat.data s.data

/-- Python `s.startswith(p)`. -/
def strStartsWith (s p : String) : Bool := p.data.isPrefixOf s.data

/-- Suffix after the first occurrence of the (nonempty) pattern, if any. -/
def dropAfterSub (p : List Char) : List Char → Option (List Char)
  | [] => none
  | c :: t => if p.isPrefixOf (c :: t) then some ((c :: t).drop p.length) else dropAfterSub p t

/-- Longest run before the first occurrence of the (nonempty) pattern. -/
def takeUntilSub (p : List Char) : List Char → List Char
  | [] => []
  | c :: t => if p.isPrefixOf (c :: t) then [] else c :: takeUntilSub p t

/-- The apostrophe character, used by the Python `repr` of strings. -/
def aposChar : Char := Char.ofNat 39

/-- Python `repr` of a plain string (as printed inside `f"...{list}"`),
simplified to the common case of strings needing no escapes. -/
def pyStrRepr (s : String) : String := aposChar.toString ++ s ++ aposChar.toString

/-- Python `str(list_of_str)` as produced by an f-string. -/
def pyListRepr (l : List String) : String :=
  "[" ++ String.intercalate ", " (l.map pyStrRepr) ++ "]"

/-- Python f-string rendering of an optional string (`None` prints as "None"). -/
def pyShowOptStr : Option String → String
  | none => "None"
  | some s => s

/-- Python truthiness of an optional string. -/
def truthyOpt : Option String → Bool
  | none => false
  | some s => s ≠ ""

/-- Python `a or b` on optional strings (empty string is falsy). -/
def pyOr (a b : Option String) : Option String :=
  match a with
  | some s => if s ≠ "" then some s else b
  | none => b

/-! ### A boolean regular-expression matcher

Modelled from the spec: the external Python `re` library (`re.match`,
anchored at the start of the string) is not part of this repository; this
is an executable model of the fragment the rulesets can use: literal
characters, `.`, escapes (`\d`, `\w`, `\s` and their negations, escaped
literals), character classes with ranges and negation, the quantifiers
`*`, `+`, `?`, and the anchors `^`/`$`.  No theorem in this development
depends on which strings a particular pattern accepts, only on the fact
that matching is a total boolean function. -/

def isWordChar (c : Char) : Bool := c.isAlphanum || c = '_'

def escPred (c : Char) : Char → Bool :=
  if c = 'd' then Char.isDigit
  else if c = 'D' then fun x => !x.isDigit
  else if c = 'w' then isWordChar
  else if c = 'W' then fun x => !isWordChar x
  else if c = 's' then pyWhitespace
  else if c = 'S' then fun x => !pyWhitespace x
  else fun x => x = c

/-- Parse the items of a character class, up to the closing bracket. -/
def classItems : List Char → Option (List (Char → Bool) × List Char)
  | [] => none
  | ']' :: r => some ([], r)
  | '\\' :: c :: r =>
    match classItems r with
    | some (ps, r2) => some (escPred c :: ps, r2)
    | none => none
  | a :: '-' :: b :: r =>
    if b = ']' then
      match classItems (b :: r) with
      | some (ps, r2) => some ((fun x => x = a) :: (fun x => x = '-') :: ps, r2)
      | none => none
    else
      match classItems r with
      | some (ps, r2) => some ((fun x => a ≤ x && x ≤ b) :: ps, r2)
      | none => none
  | c :: r =>
    match classItems r with
    | some (ps, r2) => some ((fun x => x = c) :: ps, r2)
    | none => none

/-- Parse one atom of the pattern, returning its character predicate. -/
def atomPred : List Char → Option ((Char → Bool) × List Char)
  | [] => none
  | '\\' :: c :: r => some (escPred c, r)
  | '\\' :: [] => none
  | '[' :: '^' :: r =>
    match classItems r with
    | some (ps, r2) => some (fun x => !(ps.any (fun p => p x)), r2)
    | none => none
  | '[' :: r =>
    match classItems r with
    | some (ps, r2) => some (fun x => ps.any (fun p => p x), r2)
    | none => none
  | '.' :: r => some (fun _ => true, r)
  | c :: r => some (fun x => x = c, r)

mutual

/-- Match the pattern against a prefix of the string (backtracking, fuel-bounded). -/
def reMatchAux : Nat → List Char → List Char → Bool
  | 0, _, _ => false
  | _ + 1, [], _ => true
  | fuel + 1, pat, s =>
    match pat with
    | '$' :: [] => s.isEmpty
    | _ =>
      match atomPred pat with
      | none => false
      | some (p, rest) =>
        match rest with
        | '*' :: r2 => reMatchStar fuel p r2 s
        | '+' :: r2 =>
          match s with
          | c :: t => p c && reMatchStar fuel p r2 t
          | [] => false
        | '?' :: r2 =>
          reMatchAux fuel r2 s ||
            (match s with
             | c :: t => p c && reMatchAux fuel r2 t
             | [] => false)
        | _ =>
          match s with
          | c :: t => p c && reMatchAux fuel rest t
          | [] => false

def reMatchStar : Nat → (Char → Bool) → List Char → List Char → Bool
  | 0, _, _, _ => false
  | fuel + 1, p, pat, s =>
    reMatchAux fuel pat s ||
      (match s with
       | c :: t => p c && reMatchStar fuel p pat t
       | [] => false)

end

/-- Python `re.match(pat, val)` as a boolean (a leading `^` is redundant
there and is stripped). -/
def reMatch (pat val : String) : Bool :=
  let p := match pat.data with
    | '^' :: r => r
    | l => l
  reMatchAux ((p.length + 1) * (val.data.length + 2) + 1) p val.data

/-! ### XML documents

Modelled from the spec: the external `lxml.etree` collaborator is not part
of this repository.  An element is a tag (possibly carrying a namespace
prefix), an attribute list, the text before its first child, and its child
elements; `fromstring` is an executable recursive-descent parser for this
fragment that, like `etree.fromstring`, fails on malformed input — an
uncaught failure models the raised `XMLSyntaxError`.  Tail text between
siblings is discarded because none of the embedded queries reads it. -/

inductive Xml where
  | elem (tag : String) (attrs : List (String × String)) (text : String) (children : List Xml)

def Xml.tag : Xml → String
  | .elem t _ _ _ => t

def Xml.attrs : Xml → List (String × String)
  | .elem _ a _ _ => a

def Xml.text : Xml → String
  | .elem _ _ tx _ => tx

def Xml.children : Xml → List Xml
  | .elem _ _ _ ch => ch

/-- XPath `local-name()`: the tag without its namespace prefix (the part
after the last colon). -/
def localName (t : String) : String :=
  ⟨(t.data.reverse.takeWhile (fun c => c ≠ ':')).reverse⟩

/-- `lxml` `element.get(name)`: first attribute with the given name. -/
def attrGet (e : Xml) (name : String) : Option String :=
  (e.attrs.find? (fun a => a.1 == name)).map (fun a => a.2)

def skipWs (l : List Char) : List Char := l.dropWhile pyWhitespace

def nameChar (c : Char) : Bool :=
  c.isAlphanum || c = '.' || c = '_' || c = '-' || c = ':'

/-- Parse zero or more `name="value"` attributes. -/
def parseAttrsAux : Nat → List Char → Option (List (String × String) × List Char)
  | 0, _ => none
  | fuel + 1, l0 =>
    let l := skipWs l0
    match l with
    | [] => some ([], l)
    | c :: _ =>
      if nameChar c then
        let (nm, r1) := l.span nameChar
        match skipWs r1 with
        | '=' :: r3 =>
          match skipWs r3 with
          | q :: r4 =>
            if q = '"' || q = aposChar then
              let (v, r5) := r4.span (fun x => x ≠ q)
              match r5 with
              | _ :: r6 =>
                match parseAttrsAux fuel r6 with
                | some (attrs, r7) => some ((⟨nm⟩, ⟨v⟩) :: attrs, r7)
                | none => none
              | [] => none
            else none
          | [] => none
        | _ => none
      else some ([], l)

mutual

/-- Parse one element starting at `<`. -/
def parseElem : Nat → List Char → Except String (Xml × List Char)
  | 0, _ => .error "document too deeply nested"
  | fuel + 1, l =>
    match l with
    | '<' :: r1 =>
      let (nm, r2) := r1.span nameChar
      if nm.isEmpty then .error "invalid tag name"
      else
        match parseAttrsAux (r2.length + 1) r2 with
        | none => .error "malformed attributes"
        | some (attrs, r3) =>
          match skipWs r3 with
          | '/' :: '>' :: r4 => .ok (Xml.elem ⟨nm⟩ attrs "" [], r4)
          | '>' :: r4 =>
            let (txt, r5) := r4.span (fun x => x ≠ '<')
            match parseChildren fuel r5 with
            | .error e => .error e
            | .ok (kids, r6) =>
              match r6 with
              | '<' :: '/' :: r7 =>
                let (nm2, r8) := r7.span nameChar
                if nm2 = nm then
                  match skipWs r8 with
                  | '>' :: r9 => .ok (Xml.elem ⟨nm⟩ attrs ⟨txt⟩ kids, r9)
                  | _ => .error "malformed closing tag"
                else .error "mismatched closing tag"
              | _ => .error "premature end of data"
          | _ => .error "malformed start tag"
    | _ => .error "expected element"

/-- Parse sibling elements until a closing tag comes into view. -/
def parseChildren : Nat → List Char → Except String (List Xml × List Char)
  | 0, _ => .error "document too deeply nested"
  | fuel + 1, l =>
    match l with
    | '<' :: '/' :: _ => .ok ([], l)
    | '<' :: _ =>
      match parseElem fuel l with
      | .error e => .error e
      | .ok (x, r1) =>
        let (_, r2) := r1.span (fun c => c ≠ '<')
        match parseChildren fuel r2 with
        | .error e => .error e
        | .ok (xs, r3) => .ok (x :: xs, r3)
    | _ => .error "premature end of data"

end

/-- Drop a leading `<?...?>` declaration, if present. -/
def stripDecl (l : List Char) : Except String (List Char) :=
  if ('<' :: '?' :: []).isPrefixOf l then
    match dropAfterSub ('?' :: '>' :: []) l with
    | some r => .ok (skipWs r)
    | none => .error "unterminated declaration"
  else .ok l

/-- Modelled from the spec: `lxml.etree.fromstring` — parses a whole
document or fails like the raised `XMLSyntaxError`. -/
def fromstring (xml_text : String) : Except String Xml :=
  match stripDecl (skipWs xml_text.data) with
  | .error e => .error e
  | .ok l =>
    match parseElem (2 * l.length + 4) l with
    | .error e => .error e
    | .ok (x, rest) =>
      if (skipWs rest).isEmpty then .ok x else .error "extra content at end of document"

/-! ### XPath-style queries (document-order, namespace-agnostic) -/

/-- Descendant-or-self axis in document order (fuel bounds the depth; every
call site passes a fuel no smaller than the depth of the tree). -/
def descOrSelf : Nat → Xml → List Xml
  | 0, _ => []
  | fuel + 1, x => x :: (x.children.map (descOrSelf fuel)).flatten

/-- `//*[local-name()='a']` from the root. -/
def xq1 (fuel : Nat) (root : Xml) (a : String) : List Xml :=
  (descOrSelf fuel root).filter (fun e => localName e.tag == a)

/-- First text of a node list, as Python reads `res[0]` then
`.strip() or None`: text nodes of empty elements do not exist. -/
def firstText (es : List Xml) : Option String :=
  match (es.map Xml.text).filter (fun t => t ≠ "") with
  | [] => none
  | t :: _ =>
    let s := pyStrip t
    if s = "" then none else some s

def xq1text (fuel : Nat) (root : Xml) (a : String) : Option String :=
  firstText (xq1 fuel root a)

def childrenNamed (e : Xml) (b : String) : List Xml :=
  e.children.filter (fun c => localName c.tag == b)

/-- `//*[local-name()='a']/*[local-name()='b']/text()`. -/
def xq2text (fuel : Nat) (root : Xml) (a b : String) : Option String :=
  firstText (((xq1 fuel root a).map (fun e => childrenNamed e b)).flatten)

/-- `//*[local-name()='a']/*[local-name()='b']/*[local-name()='c']/text()`. -/
def xq3text (fuel : Nat) (root : Xml) (a b c : String) : Option String :=
  firstText ((((xq1 fuel root a).map (fun e => childrenNamed e b)).flatten.map
    (fun e => childrenNamed e c)).flatten)

/-- `//*[local-name()='a']//*[local-name()='b']/text()` (proper descendants). -/
def xqDescText (fuel : Nat) (root : Xml) (a b : String) : Option String :=
  firstText (((xq1 fuel root a).map (fun e =>
    ((e.children.map (descOrSelf fuel)).flatten.filter (fun d => localName d.tag == b)))).flatten)

/-! ### Field model and extractor (`extractor.py`) -/

/-- A parsed message's field map: insertion-ordered unique keys; a key can
be present with value `None` (the pacs.008 extractor stores misses). -/
abbrev FieldMap : Type := List (String × Option String)

/-- Python `fields.get(key)`: `none` when the key is absent, otherwise the
stored value (itself optional). -/
def fmGet (fm : FieldMap) (k : String) : Option (Option String) :=
  (fm.find? (fun p => p.1 == k)).map (fun p => p.2)

structure ParsedMessage where
  msg_type : String
  fields : FieldMap
  checks : List String
deriving DecidableEq

/-- The capture of `:{tag}:(.*?)(?=\n:|\Z)` with `re.DOTALL`, stripped:
everything after the first `:{tag}:` marker up to the next `\n:` boundary
or the end of input (`find` inside `parse_mt103`). -/
def findTag (text tag : String) : Option String :=
  match dropAfterSub (":" ++ tag ++ ":").data text.data with
  | none => none
  | some rest => some ⟨stripList (takeUntilSub ('\n' :: ':' :: []) rest)⟩

def mtTags : List String := ["20", "23B", "32A", "50K", "59", "71A", "121"]

def parse_mt103 (text : String) : ParsedMessage :=
  { msg_type := "MT103"
    checks := []
    fields := mtTags.foldl (fun acc t =>
      match findTag text t with
      | some v => if v ≠ "" then acc ++ [(t, some v)] else acc
      | none => acc) [] }

def parse_pacs008 (xml_text : String) : Except String ParsedMessage :=
  match fromstring xml_text with
  | .error e => .error e
  | .ok root =>
    let fuel := xml_text.length + 1
    let fields : FieldMap :=
      [ ("MsgId", xq2text fuel root "GrpHdr" "MsgId"),
        ("CreDtTm", xq2text fuel root "GrpHdr" "CreDtTm"),
        ("InstrId", xq2text fuel root "PmtId" "InstrId"),
        ("EndToEndId", xq2text fuel root "PmtId" "EndToEndId"),
        ("IntrBkSttlmAmt", xq1text fuel root "IntrBkSttlmAmt"),
        ("DbtrNm", xqDescText fuel root "Dbtr" "Nm"),
        ("CdtrNm", xqDescText fuel root "Cdtr" "Nm"),
        ("ChrgBr", xq1text fuel root "ChrgBr"),
        ("UETR", xq1text fuel root "UETR") ]
    let fields :=
      match xq1 fuel root "IntrBkSttlmAmt" with
      | [] => fields
      | e :: _ =>
        match attrGet e "Ccy" with
        | some ccy => if ccy ≠ "" then fields ++ [("Ccy", some (pyStrip ccy))] else fields
        | none => fields
    .ok { msg_type := "pacs.008", fields := fields, checks := [] }

/-- `detect_and_parse`: the extractor entry point.  The pacs.008 branch
propagates the parse failure because `parse_pacs008` has no `try/except`
around `etree.fromstring`. -/
def detect_and_parse (text : String) : Except String ParsedMessage :=
  if strContains text "<" && strContains text "pacs.008" then
    parse_pacs008 text
  else if strContains text ":20:" && strContains text ":32A:" then
    .ok (parse_mt103 text)
  else
    .ok { msg_type := "unknown", fields := [], checks := ["Unknown format"] }

/-! ### Rule engine (`validate.py`) -/

/-- A rule entry of the declarative ruleset: a loosely-typed mapping whose
keys are all optional; `Option` mirrors `rule.get(...)`, and the `.get`
defaults are applied at each use site exactly as in the source. -/
structure Rule where
  rtype : Option String := none
  field : Option String := none
  rid : Option String := none
  desc : Option String := none
  pattern : Option String := none
  allowed : Option (List String) := none
  severity : Option String := none
  message : Option String := none
deriving DecidableEq

structure Finding where
  severity : String
  code : String
  field : Option String
  message : String
deriving DecidableEq

structure RuleSet where
  mandatory_fields : List String
  rules : List Rule
deriving DecidableEq

/-- The loaded base rules document: a mapping from normalized kind to ruleset. -/
abbrev Rules : Type := List (String × RuleSet)

def rulesFind (rs : Rules) (k : String) : Option RuleSet :=
  ((rs.find? (fun p => p.1 == k)).map (fun p => p.2))

def normalize_msg_type (msg_type : String) : String :=
  let t := pyLower (pyStrip msg_type)
  if t = "mt103" then "mt103"
  else if t = "pacs.008" || t = "pacs008" then "pacs008"
  else t

/-- `get_field`: key lookup, `None` and empty/whitespace-only values all
come back as `none`; other values come back stripped. -/
def get_field (parsed : ParsedMessage) (key : String) : Option String :=
  match fmGet parsed.fields key with
  | none => none
  | some none => none
  | some (some v) =>
    let s := pyStrip v
    if s = "" then none else some s

def check_mandatory (parsed : ParsedMessage) (mandatory_fields : List String) : List Finding :=
  mandatory_fields.filterMap (fun f =>
    match get_field parsed f with
    | none => some { severity := "ERROR", code := "MISSING_MANDATORY", field := some f,
                     message := "Missing mandatory field: " ++ f }
    | some _ => none)

def run_rule (parsed : ParsedMessage) (rule : Rule) : Option Finding :=
  let rtype := rule.rtype
  let field := rule.field
  let rid := rule.rid.getD "RULE"
  let desc := rule.desc.getD ""
  let val :=
    match field with
    | some f => if f ≠ "" then get_field parsed f else none
    | none => none
  if rtype = some "regex_field" then
    match val with
    | none => some { severity := "ERROR", code := rid, field := field,
                     message := desc ++ " (field missing/empty)" }
    | some v =>
      if reMatch (rule.pattern.getD "") v then none
      else some { severity := "ERROR", code := rid, field := field,
                  message := desc ++ ". Found: " ++ v }
  else if rtype = some "regex_optional" then
    match val with
    | none => none
    | some v =>
      if reMatch (rule.pattern.getD "") v then none
      else some { severity := "WARN", code := rid, field := field,
                  message := desc ++ ". Found: " ++ v }
  else if rtype = some "in_set" then
    match val with
    | none => some { severity := "ERROR", code := rid, field := field,
                     message := desc ++ " (field missing/empty)" }
    | some v =>
      let allowed := rule.allowed.getD []
      if v ∈ allowed then none
      else some { severity := "ERROR", code := rid, field := field,
                  message := desc ++ ". Found: " ++ v ++ ". Allowed: " ++ pyListRepr allowed }
  else
    some { severity := "WARN", code := "UNKNOWN_RULE_TYPE", field := field,
           message := "Unknown rule type: " ++ pyShowOptStr rtype ++ " for rule " ++ rid }

structure Summary where
  errors : Nat
  warnings : Nat
deriving DecidableEq

structure Report where
  detected_type : String
  normalized_type : String
  extracted : ParsedMessage
  issues : List Finding
  summary : Summary
deriving DecidableEq

/-- `sum(1 for i in issues if i.get("severity") == sev)`. -/
def countSev (issues : List Finding) (sev : String) : Nat :=
  (issues.filter (fun i => i.severity == sev)).length

/-- `validate_message`, parametrized by the loaded rules document (the
source loads it from `rules.yaml`, an external configuration file whose
absence is a startup-fatal error).  Propagates the extractor's parse
failure, which the source does not catch. -/
def validate_message (rules_all : Rules) (raw_text : String) : Except String Report :=
  match detect_and_parse raw_text with
  | .error e => .error e
  | .ok parsed =>
    let msg_type_raw := parsed.msg_type
    let msg_type := normalize_msg_type msg_type_raw
    match rulesFind rules_all msg_type with
    | none =>
      .ok { detected_type := msg_type_raw, normalized_type := msg_type, extracted := parsed,
            issues := [{ severity := "WARN", code := "NO_RULESET", field := none,
                         message := "No ruleset found for message type: " ++ msg_type_raw }],
            summary := { errors := 0, warnings := 1 } }
    | some ruleset =>
      let issues :=
        check_mandatory parsed ruleset.mandatory_fields
          ++ ruleset.rules.filterMap (run_rule parsed)
          ++ parsed.checks.map (fun c =>
              { severity := "WARN", code := "PARSER_CHECK", field := none, message := c })
      .ok { detected_type := msg_type_raw, normalized_type := msg_type, extracted := parsed,
            issues := issues,
            summary := { errors := countSev issues "ERROR",
                         warnings := countSev issues "WARN" } }

/-- `pretty_defects`: render a report as the RULES_VALIDATE section text. -/
def findingLine (idx : Nat) (it : Finding) : String :=
  toString idx ++ ". [" ++ it.severity ++ "] " ++ it.code
    ++ (match it.field with
        | some f => if f ≠ "" then " (" ++ f ++ ")" else ""
        | none => "")
    ++ " — " ++ it.message

def pretty_defects (report : Report) : String :=
  let head :=
    [ "Detected: " ++ report.detected_type ++ "  |  Ruleset: " ++ report.normalized_type,
      "Errors: " ++ toString report.summary.errors ++ " | Warnings: "
        ++ toString report.summary.warnings,
      "" ]
  if report.issues.isEmpty then
    String.intercalate "\n" (head ++ ["✅ No issues found."])
  else
    String.intercalate "\n"
      (head ++ ["Defects:"] ++ report.issues.enum.map (fun p => findingLine (p.1 + 1) p.2))

/-! ### SR2026 overlay engine (`sr2026.py`) -/

/-- An overlay entry (`overlay.get("rules", [])` applied at the use site). -/
structure OverlayRuleSet where
  rules : List Rule
deriving DecidableEq

/-- The loaded overlay document's `overlays` mapping (`sr2026.yaml`). -/
abbrev Overlays : Type := List (String × OverlayRuleSet)

def overlaysFind (ov : Overlays) (k : String) : Option OverlayRuleSet :=
  ((ov.find? (fun p => p.1 == k)).map (fun p => p.2))

/-- `_get_field` of the overlay module: reads the base report's extraction. -/
def sr_get_field (report : Report) (field : String) : Option String :=
  match fmGet report.extracted.fields field with
  | none => none
  | some none => none
  | some (some v) =>
    let s := pyStrip v
    if s = "" then none else some s

def apply_overlay_rules (base_report : Report) (overlay : OverlayRuleSet) : List Finding :=
  overlay.rules.flatMap (fun rule =>
    let rtype := rule.rtype
    let rid := rule.rid.getD "SR2026_RULE"
    let desc := rule.desc.getD ""
    let severity := rule.severity.getD "WARN"
    if rtype = some "guidance" then
      [{ severity := severity, code := rid, field := rule.field,
         message := pyStrip (desc ++ ": " ++ rule.message.getD "") }]
    else if rtype = some "in_set" then
      let field := rule.field
      let allowed := rule.allowed.getD []
      let val :=
        match field with
        | some f => if f ≠ "" then sr_get_field base_report f else none
        | none => none
      match val with
      | none => [{ severity := "ERROR", code := rid, field := field,
                   message := desc ++ " (field missing/empty)" }]
      | some v =>
        if v ∈ allowed then []
        else [{ severity := "ERROR", code := rid, field := field,
                message := desc ++ ". Found: " ++ v ++ ". Allowed: " ++ pyListRepr allowed }]
    else
      [{ severity := "WARN", code := "SR2026_UNKNOWN_RULE", field := rule.field,
         message := "Unknown SR2026 rule type: " ++ pyShowOptStr rtype ++ " (" ++ rid ++ ")" }])

structure SRReport where
  sr_mode : String
  detected_type : String
  normalized_type : String
  issues : List Finding
  summary : Summary
  extracted : ParsedMessage
deriving DecidableEq

/-- `sr2026_assess`, parametrized by the two loaded rule documents.  The
`overlays.get(norm) or \x7b\x7d` fallback becomes `getD` of the empty
overlay, which evaluates to zero findings. -/
def sr2026_assess (rules_all : Rules) (overlays : Overlays) (raw_text : String) :
    Except String SRReport :=
  match validate_message rules_all raw_text with
  | .error e => .error e
  | .ok base =>
    let overlay := (overlaysFind overlays base.normalized_type).getD { rules := [] }
    let overlay_issues := apply_overlay_rules base overlay
    let all_issues := base.issues ++ overlay_issues
    .ok { sr_mode := "SR2026", detected_type := base.detected_type,
          normalized_type := base.normalized_type, issues := all_issues,
          summary := { errors := countSev all_issues "ERROR",
                       warnings := countSev all_issues "WARN" },
          extracted := base.extracted }

/-- `sr2026_pretty`: render the overlay assessment as the SR2026 section. -/
def sr2026_pretty (report : SRReport) : String :=
  let head :=
    [ "SR2026 Assessment",
      "Type: " ++ report.detected_type ++ "  |  Ruleset: " ++ report.normalized_type,
      "Errors: " ++ toString report.summary.errors ++ " | Warnings: "
        ++ toString report.summary.warnings,
      "" ]
  if report.issues.isEmpty then
    String.intercalate "\n" (head ++ ["✅ No issues found."])
  else
    String.intercalate "\n"
      (head ++ ["Findings:"]
        ++ report.issues.enum.map (fun p => findingLine (p.1 + 1) p.2)
        ++ [ "",
             "SR2026 Reminders:",
             "- Standards Release 2026 goes live on 14 Nov 2026 (plan testing well before).",
             "- SR2026 trend: tighter validation and reduced free-form data (e.g., addresses move to structured/hybrid)." ])

/-! ### Failure classifier (`failure_analyzer.py`) -/

/-- One row of the static reason-code knowledge table. -/
structure CodeInfo where
  meaning : String
  checks : List String
  ask : List String
deriving DecidableEq

/-- `PACS002_CODES`: the starter dictionary followed by the `update` block;
all keys are distinct, so the merged dictionary is the concatenation. -/
def PACS002_CODES : List (String × CodeInfo) :=
  [ ("AC04",
     { meaning := "Account closed",
       checks :=
         [ "Creditor account/IBAN in original message correct?",
           "Is creditor account closed/blocked/dormant at beneficiary bank?",
           "Was account format changed/mapped incorrectly during MT→MX conversion?" ],
       ask :=
         [ "Confirm beneficiary account status and closure date",
           "Provide beneficiary bank reject details and internal reference" ] }),
    ("AM04",
     { meaning := "Insufficient funds",
       checks :=
         [ "Is this a return/refund scenario requiring special handling?",
           "Any limits/overdraft constraints at beneficiary/receiver side?" ],
       ask :=
         [ "Confirm where insufficient funds occurred and which account context",
           "Any overdraft/limit constraints or cut-off timing?" ] }),
    ("AG01",
     { meaning := "Transaction forbidden",
       checks :=
         [ "Sanctions/AML screening hit?",
           "Local regulatory/product restriction triggered?",
           "Purpose/category purpose constraints breached for corridor/scheme?" ],
       ask :=
         [ "Which compliance rule triggered? (sanctions/AML/velocity/geo)",
           "Is additional information required for repair/release?" ] }),
    ("BE04",
     { meaning := "Invalid creditor account number",
       checks :=
         [ "IBAN/account checksum/length correct?",
           "Account mapped incorrectly from legacy fields?" ],
       ask :=
         [ "Expected account/IBAN format for corridor",
           "Confirm whether account exists at beneficiary bank" ] }),
    ("AC01",
     { meaning := "Incorrect account number (invalid format/wrong account)",
       checks :=
         [ "Validate IBAN/account checksum/length and country rules",
           "Verify account is in the correct ISO element (and not truncated)",
           "If MT→MX conversion involved, verify mapping to creditor account" ],
       ask :=
         [ "Confirm which account field failed validation and expected format",
           "Confirm whether the account exists at beneficiary bank" ] }),
    ("AC03",
     { meaning := "Invalid creditor account number or not provided",
       checks :=
         [ "Confirm creditor account present and correctly populated",
           "Check for truncation/whitespace/invalid characters",
           "Verify mapping from legacy/account source fields" ],
       ask :=
         [ "Is the account missing or invalid? Provide expected format for the corridor" ] }),
    ("AC06",
     { meaning := "Account blocked / not usable",
       checks :=
         [ "Confirm whether block is account-status vs compliance hold",
           "Check if beneficiary account is dormant/frozen/blocked" ],
       ask :=
         [ "Is the block due to account status or compliance? What is needed to release/repair?" ] }),
    ("AC13",
     { meaning := "Invalid debtor account",
       checks :=
         [ "Validate debtor account format and existence in core",
           "Verify correct mapping of debtor account from channel/core to message" ],
       ask :=
         [ "Confirm debtor account validation failure details (which element and why)" ] }),
    ("AC14",
     { meaning := "Invalid agent/account servicer context",
       checks :=
         [ "Verify DebtorAgent/CreditorAgent identifiers (BIC/clearing member id)",
           "Check intermediary chain/routing rules for the corridor" ],
       ask :=
         [ "Which agent identifier is invalid (BIC/clearing id)? Provide expected routing" ] }),
    ("AC15",
     { meaning := "Account name mismatch / invalid account holder details",
       checks :=
         [ "Check name verification or beneficiary name rules (scheme/bank-specific)",
           "Confirm ordering/beneficiary name mapping and allowed characters" ],
       ask :=
         [ "Is this a name-check failure? What name format is required for acceptance?" ] }),
    ("AC16",
     { meaning := "Account does not exist",
       checks :=
         [ "Confirm beneficiary account exists and is active",
           "Verify no digit loss during mapping/transmission" ],
       ask :=
         [ "Confirm whether account exists; if not, can beneficiary provide the correct account?" ] }),
    ("AC17",
     { meaning := "Account transferred/switched (successor account may exist)",
       checks :=
         [ "Check if beneficiary moved accounts/banks and whether redirection exists" ],
       ask :=
         [ "Is there a successor account? Provide new account details for re-initiation" ] }),
    ("AG02",
     { meaning := "Invalid bank operation code / operation not supported",
       checks :=
         [ "Check ServiceLevel/LocalInstrument/CategoryPurpose values",
           "Confirm corridor/scheme capability and message variant support" ],
       ask :=
         [ "Which operation/value is unsupported? What values do you accept for this corridor?" ] }),
    ("AM01",
     { meaning := "Invalid amount",
       checks :=
         [ "Check decimal separator and numeric format",
           "Check currency fraction digits and rounding rules" ],
       ask :=
         [ "Is the issue format/precision or a business limit? Provide allowed precision/limits" ] }),
    ("AM02",
     { meaning := "Amount exceeds limit",
       checks :=
         [ "Confirm scheme/bank corridor limits and product caps",
           "Consider split payment if permitted" ],
       ask :=
         [ "What is the max allowed amount? Is splitting permitted?" ] }),
    ("AM03",
     { meaning := "Currency not supported",
       checks :=
         [ "Confirm corridor supports instructed/settlement currency",
           "Check settlement currency vs instructed currency mismatch" ],
       ask :=
         [ "Which currencies are supported for this corridor? Should settlement currency be changed?" ] }),
    ("AM05",
     { meaning := "Duplicate transaction",
       checks :=
         [ "Check if same MsgId/InstrId/EndToEndId/UETR was resent",
           "Review retry/idempotency logic and replay mechanisms" ],
       ask :=
         [ "Which reference triggered duplicate detection? Provide the original reference on your side" ] }),
    ("DUPL",
     { meaning := "Payment is a duplicate of another payment",
       checks :=
         [ "Verify idempotency keys / unique references and resubmission strategy",
           "Check if payment was resent after timeout and actually processed previously" ],
       ask :=
         [ "Provide reference of the original payment you consider duplicate" ] }) ]

def codesGet (c : String) : Option CodeInfo :=
  ((PACS002_CODES.find? (fun p => p.1 == c)).map (fun p => p.2))

/-- `_dedupe`: strip each entry, drop blanks and repeats, keep first-seen order. -/
def dedupeAux (seen : List String) : List String → List String
  | [] => []
  | x :: t =>
    let x2 := pyStrip x
    if x2 ≠ "" && !(seen.contains x2) then x2 :: dedupeAux (x2 :: seen) t
    else dedupeAux seen t

def dedupe (items : List String) : List String := dedupeAux [] items

def isHexDigit (c : Char) : Bool :=
  c.isDigit || ('a' ≤ c && c ≤ 'f') || ('A' ≤ c && c ≤ 'F')

/-- Consume exactly `n` hex digits. -/
def takeHex : Nat → List Char → Option (List Char)
  | 0, l => some l
  | _ + 1, [] => none
  | n + 1, c :: t => if isHexDigit c then takeHex n t else none

/-- The rest of the input after a UUID starting at this position, per the
`UUID_RE` pattern `8-4-[1-5]3-[89abAB]3-12`. -/
def uuidAt (l : List Char) : Option (List Char) :=
  match takeHex 8 l with
  | none => none
  | some r1 =>
    match r1 with
    | '-' :: r2 =>
      match takeHex 4 r2 with
      | none => none
      | some r3 =>
        match r3 with
        | '-' :: c :: r4 =>
          if c = '1' || c = '2' || c = '3' || c = '4' || c = '5' then
            match takeHex 3 r4 with
            | none => none
            | some r5 =>
              match r5 with
              | '-' :: d :: r6 =>
                if d = '8' || d = '9' || d = 'a' || d = 'b' || d = 'A' || d = 'B' then
                  match takeHex 3 r6 with
                  | none => none
                  | some r7 =>
                    match r7 with
                    | '-' :: r8 => takeHex 12 r8
                    | _ => none
                else none
              | _ => none
          else none
        | _ => none
    | _ => none

/-- `UUID_RE.search`: first `\b`-delimited UUID in the text, scanning left
to right (`prev` is the character before the current position). -/
def uuidSearch (prev : Option Char) : List Char → Option String
  | [] => none
  | c :: t =>
    let boundary := match prev with
      | none => true
      | some p => !isWordChar p
    (if boundary then
      match uuidAt (c :: t) with
      | some rest =>
        let after := match rest with
          | [] => true
          | d :: _ => !isWordChar d
        if after then some ⟨(c :: t).take ((c :: t).length - rest.length)⟩
        else uuidSearch (some c) t
      | none => uuidSearch (some c) t
    else uuidSearch (some c) t)

/-- `_extract_uetr_anywhere` (and `autopilot._extract_uetr`). -/
def extract_uetr_anywhere (text : String) : Option String := uuidSearch none text.data

/-- The rest of the input after an `[A-Z]{2}\d{2}` token at this position. -/
def rcAt : List Char → Option (List Char)
  | a :: b :: c :: d :: r =>
    if a.isUpper && b.isUpper && c.isDigit && d.isDigit then some r else none
  | _ => none

/-- `_guess_reason_code_from_text`: first `\b[A-Z]{2}\d{2}\b` token. -/
def rcSearch (prev : Option Char) : List Char → Option String
  | [] => none
  | c :: t =>
    let boundary := match prev with
      | none => true
      | some p => !isWordChar p
    (if boundary then
      match rcAt (c :: t) with
      | some rest =>
        let after := match rest with
          | [] => true
          | d :: _ => !isWordChar d
        if after then some ⟨(c :: t).take 4⟩
        else rcSearch (some c) t
      | none => rcSearch (some c) t
    else rcSearch (some c) t)

def guess_reason_code_from_text (text : String) : Option String := rcSearch none text.data

/-- `parse_pacs002_details`: the one extractor that catches the XML parse
failure and degrades to a note, mirroring the source's `try/except`. -/
def parse_pacs002_details (xml_text : String) : ParsedMessage :=
  match fromstring xml_text with
  | .error e => { msg_type := "pacs.002", fields := [], checks := ["XML parse failed: " ++ e] }
  | .ok root =>
    let fuel := xml_text.length + 1
    { msg_type := "pacs.002", checks := [],
      fields :=
        [ ("GrpSts", xq2text fuel root "OrgnlGrpInfAndSts" "GrpSts"),
          ("TxSts", xq2text fuel root "TxInfAndSts" "TxSts"),
          ("RsnCd", xq3text fuel root "StsRsnInf" "Rsn" "Cd"),
          ("RsnPrtry", xq3text fuel root "StsRsnInf" "Rsn" "Prtry"),
          ("AddtlInf", xq2text fuel root "StsRsnInf" "AddtlInf"),
          ("OrgnlMsgId", xq2text fuel root "OrgnlGrpInfAndSts" "OrgnlMsgId"),
          ("OrgnlMsgNmId", xq2text fuel root "OrgnlGrpInfAndSts" "OrgnlMsgNmId"),
          ("OrgnlCreDtTm", xq2text fuel root "OrgnlGrpInfAndSts" "OrgnlCreDtTm"),
          ("OrgnlInstrId", xq1text fuel root "OrgnlInstrId"),
          ("OrgnlEndToEndId", xq1text fuel root "OrgnlEndToEndId"),
          ("OrgnlUETR", xq1text fuel root "OrgnlUETR"),
          ("UETR", xq1text fuel root "UETR") ] }

/-- Python `list.insert(n, a)` (clamps an out-of-range index). -/
def pyInsert (n : Nat) (a : String) (l : List String) : List String :=
  match n, l with
  | 0, l => a :: l
  | _ + 1, [] => [a]
  | n + 1, x :: t => x :: pyInsert n a t

/-- The account-specific caution inserted for account-related codes. -/
def acctCaution : String :=
  "3a) Account issue: confirm beneficiary account details with receiving bank; do NOT resend blindly without correction."

/-- The compliance caution inserted for compliance-related codes. -/
def complianceCaution : String :=
  "3a) Forbidden/compliance: involve AML/Compliance; collect required info and follow repair workflow."

def recommended_actions (code : Option String) : List String :=
  let base :=
    [ "1) Confirm exact status + reason from pacs.002 (GrpSts/TxSts + Rsn/Cd + AddtlInf).",
      "2) Correlate across logs using UETR + OrgnlMsgId/InstrId/EndToEndId (and internal reference).",
      "3) Decide path: REPAIR/RESEND vs RETURN vs CANCEL (camt.056) based on scheme rules and bank procedures.",
      "4) If mapping issue suspected: reproduce in lower env with same payload, fix mapping, then follow controlled prod repair.",
      "5) Record a Jira defect: symptoms, exact code, impacted fields, proposed fix, evidence (logs + message copies)." ]
  let base := if code = some "AC04" || code = some "BE04" then pyInsert 3 acctCaution base else base
  let base := if code = some "AG01" then pyInsert 3 complianceCaution base else base
  base

structure Overview where
  detected_message_type : String
  status : Option String
  reason_code : Option String
  reason_meaning : Option String
  addtl_info : Option String
  uetr : Option String
  original_msg_id : Option String
  original_instr_id : Option String
  original_end_to_end_id : Option String
  amount_hint : Option String
  currency : Option String
  charges_hint : Option String
  debtor_hint : Option String
  creditor_hint : Option String
deriving DecidableEq

structure Email where
  subject : String
  body : String
deriving DecidableEq

/-- `build_investigation_email` (only the report's overview is read). -/
def build_investigation_email (o : Overview) : Email :=
  let code := o.reason_code
  let code_meaning := o.reason_meaning
  let subject := pyStrip ("Investigation: Payment status " ++ pyShowOptStr o.status
    ++ " " ++ (if truthyOpt code then pyShowOptStr code else "") ++ " "
    ++ (if truthyOpt code_meaning then "- " ++ pyShowOptStr code_meaning else ""))
  let lines :=
    [ "Hello Team,", "",
      "We received a payment status indicating a failure. Please help confirm the exact rejection details and required corrective action.",
      "", "Key references:" ]
    ++ (if truthyOpt o.uetr then ["- UETR: " ++ pyShowOptStr o.uetr] else [])
    ++ (if truthyOpt o.original_msg_id then ["- Original MsgId: " ++ pyShowOptStr o.original_msg_id] else [])
    ++ (if truthyOpt o.original_instr_id then ["- Original InstrId: " ++ pyShowOptStr o.original_instr_id] else [])
    ++ (if truthyOpt o.original_end_to_end_id then ["- Original EndToEndId: " ++ pyShowOptStr o.original_end_to_end_id] else [])
    ++ (if truthyOpt code then
          ["- Reason code: " ++ pyShowOptStr code
            ++ (if truthyOpt code_meaning then " (" ++ pyShowOptStr code_meaning ++ ")" else "")]
        else [])
    ++ (if truthyOpt o.addtl_info then ["- Additional info: " ++ pyShowOptStr o.addtl_info] else [])
    ++ [ "", "Please confirm:",
         "1) The exact rejection reason and any mandatory data required for repair/re-submission",
         "2) Whether this should be repaired, returned, or cancelled (per your scheme/corridor rules)",
         "3) Any internal reference/ticket number for tracking on your side",
         "", "Thanks,", "Operations Team" ]
  { subject := subject, body := String.intercalate "\n" lines }

structure FailureReport where
  overview : Overview
  summary : List String
  what_to_check : List String
  what_to_ask_other_bank : List String
  recommended_next_actions : List String
  investigation_email : Email
deriving DecidableEq

/-- The always-useful checks appended after the code-specific ones. -/
def alwaysChecks : List String :=
  [ "Confirm corridor & scheme rules (CBPR+, local clearing, correspondent chain).",
    "Confirm whether this is REJECT vs RETURN vs REPAIR scenario (procedure differs).",
    "Check sanctions/AML screening hits (names, addresses, countries) if forbidden/blocked hints appear.",
    "If MT→MX conversion involved, verify mapping for account/agent fields and address blocks.",
    "If SR2026 readiness: confirm address structuring/hybrid compliance where applicable." ]

/-- `analyze_failure`.  `detect_and_parse` can re-raise the pacs.008 parse
failure; the source does not catch it, so it propagates here too. -/
def analyze_failure (raw0 : String) : Except String FailureReport :=
  let raw := pyStrip raw0
  let pacs002 : Option ParsedMessage :=
    if strContains raw "<" && strContains raw "pacs.002" then some (parse_pacs002_details raw)
    else none
  match detect_and_parse raw with
  | .error e => .error e
  | .ok parsed =>
    let msg_type := parsed.msg_type
    let fields := parsed.fields
    let fget := fun (k : String) => (fmGet fields k).join
    let p2get := fun (k : String) =>
      match pacs002 with
      | some p => (fmGet p.fields k).join
      | none => none
    let rsn_cd0 := match pacs002 with
      | some _ => pyOr (p2get "RsnCd") (p2get "RsnPrtry")
      | none => none
    let status := match pacs002 with
      | some _ => pyOr (p2get "TxSts") (p2get "GrpSts")
      | none => none
    let addtl := p2get "AddtlInf"
    let org_msg_id := p2get "OrgnlMsgId"
    let org_instr := p2get "OrgnlInstrId"
    let org_e2e := p2get "OrgnlEndToEndId"
    let org_uetr := match pacs002 with
      | some _ => pyOr (p2get "OrgnlUETR") (p2get "UETR")
      | none => none
    let rsn_cd := if truthyOpt rsn_cd0 then rsn_cd0 else guess_reason_code_from_text raw
    let code_info := if truthyOpt rsn_cd then codesGet (rsn_cd.getD "") else none
    let uetr := pyOr (pyOr (pyOr (fget "121") (fget "UETR")) org_uetr)
      (extract_uetr_anywhere raw)
    let chrg := pyOr (fget "71A") (fget "ChrgBr")
    let ccy := fget "Ccy"
    let amt := pyOr (fget "IntrBkSttlmAmt") (fget "32A")
    let overview : Overview :=
      { detected_message_type := match pacs002 with
          | some p => p.msg_type
          | none => msg_type
        status := status
        reason_code := rsn_cd
        reason_meaning := code_info.map (fun ci => ci.meaning)
        addtl_info := addtl
        uetr := uetr
        original_msg_id := org_msg_id
        original_instr_id := org_instr
        original_end_to_end_id := org_e2e
        amount_hint := amt
        currency := ccy
        charges_hint := chrg
        debtor_hint := pyOr (fget "50K") (fget "DbtrNm")
        creditor_hint := pyOr (fget "59") (fget "CdtrNm") }
    let (summary0, checks0, asks0) :=
      match code_info with
      | some ci =>
        (["Reason code " ++ pyShowOptStr rsn_cd ++ ": " ++ ci.meaning], ci.checks, ci.ask)
      | none =>
        ([ "Reason code not confidently identified. Prefer pacs.002 <StsRsnInf><Rsn><Cd>/<Prtry> if available." ],
         [ "Capture exact pacs.002 status + reason and additional info",
           "Verify MsgId/InstrId/EndToEndId/UETR consistency across hops" ],
         [ "Ask receiving bank for exact rejection reason code and additional info",
           "Ask for their internal reference / investigation ticket number" ])
    let checks := checks0 ++ alwaysChecks
    let summary := summary0
      ++ (if truthyOpt uetr then
            ["Use UETR to trace across gpi/internal logs: " ++ pyShowOptStr uetr] else [])
      ++ (if truthyOpt org_msg_id then
            ["Correlate using OrgnlMsgId: " ++ pyShowOptStr org_msg_id] else [])
    .ok { overview := overview
          summary := summary
          what_to_check := dedupe checks
          what_to_ask_other_bank := dedupe asks0
          recommended_next_actions := recommended_actions rsn_cd
          investigation_email := build_investigation_email overview }

/-- `enumerate(items, 1)`-style numbered lines. -/
def numberedLines (items : List String) : List String :=
  items.enum.map (fun p => toString (p.1 + 1) ++ ". " ++ p.2)

/-- `pretty_failure`: render a failure report as the FAILURE_ANALYSIS section. -/
def pretty_failure (rep : FailureReport) : String :=
  let o := rep.overview
  let lines :=
    [ "Failure Analysis", "- Type: " ++ o.detected_message_type ]
    ++ (if truthyOpt o.status then ["- Status: " ++ pyShowOptStr o.status] else [])
    ++ (if truthyOpt o.reason_code then
          ["- Reason: " ++ pyShowOptStr o.reason_code
            ++ (if truthyOpt o.reason_meaning then " (" ++ pyShowOptStr o.reason_meaning ++ ")" else "")]
        else [])
    ++ (if truthyOpt o.addtl_info then ["- Additional info: " ++ pyShowOptStr o.addtl_info] else [])
    ++ (if truthyOpt o.uetr then ["- UETR: " ++ pyShowOptStr o.uetr] else [])
    ++ (if truthyOpt o.original_msg_id then ["- OrgnlMsgId: " ++ pyShowOptStr o.original_msg_id] else [])
    ++ (if truthyOpt o.original_instr_id then ["- OrgnlInstrId: " ++ pyShowOptStr o.original_instr_id] else [])
    ++ (if truthyOpt o.original_end_to_end_id then ["- OrgnlEndToEndId: " ++ pyShowOptStr o.original_end_to_end_id] else [])
    ++ [""]
    ++ ["Summary"] ++ rep.summary.map (fun s => "- " ++ s) ++ [""]
    ++ ["What to check"] ++ numberedLines rep.what_to_check ++ [""]
    ++ ["What to ask the other bank"] ++ numberedLines rep.what_to_ask_other_bank ++ [""]
    ++ ["Recommended next actions"] ++ rep.recommended_next_actions.map (fun a => "- " ++ a) ++ [""]
    ++ [ "Investigation email draft",
         "Subject: " ++ rep.investigation_email.subject,
         rep.investigation_email.body ]
  String.intercalate "\n" lines

/-- `ai_suggestion`: builds the remediation prompt and post-processes the
collaborator's answer.  The arguments are the `reason_code`,
`reason_meaning` and `uetr` entries of the report's overview dictionary
(both call sites always populate these keys, so the Python `.get`
defaults never fire); the collaborator is an opaque `String → String`. -/
def ai_suggestion (llm : String → String) (reason meaning uetr : Option String) : String :=
  let prompt := "\nYou are a senior SWIFT CBPR+ operations expert specializing in cross-border payments investigation.\n\nProvide remediation suggestions for this payment failure.\n\nReason code: "
    ++ pyShowOptStr reason ++ "\nMeaning: " ++ pyShowOptStr meaning ++ "\nUETR: "
    ++ pyShowOptStr uetr
    ++ "\n\nGive concise bullet points:\n\n• Likely root causes\n• Immediate actions\n• Repair / resend strategy\n• Questions to ask other bank\n• Preventive controls\n\nKeep it practical and aligned to CBPR+ processes.\n"
  let result := llm prompt
  if result = "" || pyStrip result = "" then "⚠️ No AI suggestion generated. Try again."
  else pyStrip result

/-! ### External schema validation wrapper (`xsd_validate.py`) -/

/-- Modelled from the spec: the loaded `etree.XMLSchema` collaborator is
opaque — a boolean verdict plus an already-formatted diagnostic log
(`load_schema` succeeding is the "loadable schema file" premise). -/
structure XmlSchema where
  validate : Xml → Bool
  error_log : List String

/-- `validate_xml_against_xsd`: the only XML entry point that wraps
`etree.fromstring` in a `try/except`. -/
def validate_xml_against_xsd (schema : XmlSchema) (xml_text : String) : Bool × List String :=
  match fromstring xml_text with
  | .error e => (false, ["XML_PARSE_ERROR: " ++ e])
  | .ok doc =>
    if schema.validate doc then (true, [])
    else (false, schema.error_log)

/-! ### Input router (`autopilot.py`) -/

def detect_input_kind (text : String) : String :=
  let t := pyStrip text
  let low := pyLower t
  if strStartsWith low "validate:" || strStartsWith low "sr2026:"
      || strStartsWith low "xsd_validate:" || strStartsWith low "failure_analysis:" then
    "command"
  else if strContains t "<" && strContains t ">" && strStartsWith (pyLstrip t) "<" then
    if strContains low "pacs.002" || strContains low "fitofipmtstsrpt" then "pacs002_xml"
    else if strContains low "pacs.008" || strContains low "fitoficstmrcdttrf" then "pacs008_xml"
    else "xml_other"
  else if strContains t ":20:" && (strContains t ":32A:" || strContains t ":23B:") then "mt_like"
  else if ["rjct", "reject", "rejected", "return", "failed", "ac04", "ac01", "ag01", "am04"].any
      (fun k => strContains low k) then
    "incident_text"
  else "free_text"

structure AutoResult where
  kind : String
  sections : List (String × String)

/-- `run_autopilot`, parametrized by the loaded rule documents and the two
optional collaborators (`llm`, and the schema in place of `xsd_path`).
Every branch that reaches `detect_and_parse` on pacs.008-marked text can
propagate the uncaught XML parse failure. -/
def run_autopilot (rules_all : Rules) (overlays : Overlays)
    (llm : Option (String → String)) (xsd : Option XmlSchema) (text : String) :
    Except String AutoResult :=
  let kind := detect_input_kind text
  if kind = "command" then
    .ok { kind := kind, sections := [("INFO", "Detected explicit command. Autopilot skipped.")] }
  else if kind = "pacs002_xml" then
    match analyze_failure text with
    | .error e => .error e
    | .ok rep =>
      let secs := [("FAILURE_ANALYSIS", pretty_failure rep)]
      let secs := match llm with
        | some f => secs ++ [("AI_SUGGESTIONS",
            ai_suggestion f rep.overview.reason_code rep.overview.reason_meaning rep.overview.uetr)]
        | none => secs
      .ok { kind := kind, sections := secs }
  else if kind = "pacs008_xml" then
    let xsdSecs := match xsd with
      | none => []
      | some schema =>
        match validate_xml_against_xsd schema text with
        | (true, _) => [("XSD", "✅ XSD VALID (SR2026 pacs.008)")]
        | (false, errs) =>
          [("XSD", "❌ XSD INVALID (SR2026 pacs.008)\n" ++ String.intercalate "\n" (errs.take 50))]
    match sr2026_assess rules_all overlays text with
    | .error e => .error e
    | .ok sr =>
      match validate_message rules_all text with
      | .error e => .error e
      | .ok base =>
        let secs := xsdSecs ++ [("SR2026", sr2026_pretty sr), ("RULES_VALIDATE", pretty_defects base)]
        let secs := match llm with
          | some f => secs ++ [("AI_SUGGESTIONS",
              ai_suggestion f (some "VALIDATION_FINDINGS") (some "XSD/SR2026/Rules findings detected")
                (extract_uetr_anywhere text))]
          | none => secs
        .ok { kind := kind, sections := secs }
  else if kind = "mt_like" then
    match validate_message rules_all text with
    | .error e => .error e
    | .ok base =>
      .ok { kind := kind,
            sections := [("RULES_VALIDATE", pretty_defects base),
              ("SR2026", "SR2026 mainly applies to MX/CBPR+ usage. For MT, focus on MX readiness & mapping tests.")] }
  else if kind = "incident_text" then
    match analyze_failure text with
    | .error e => .error e
    | .ok rep =>
      let secs := [("FAILURE_ANALYSIS", pretty_failure rep)]
      let secs := match llm with
        | some f => secs ++ [("AI_SUGGESTIONS",
            ai_suggestion f rep.overview.reason_code rep.overview.reason_meaning rep.overview.uetr)]
        | none => secs
      .ok { kind := kind, sections := secs }
  else
    .ok { kind := kind,
          sections := [("INFO", "Looks like a normal question. Route to RAG / knowledge-base answer.")] }

/-! ### Concrete scenario data used by witnesses and counterexamples -/

/-- The spec's legacy-text scenario with a `50K` mandatory-field gap. -/
def mtScenarioRules : Rules :=
  [("mt103", { mandatory_fields := ["20", "23B", "32A", "50K"], rules := [] })]

def mtScenarioRaw : String := ":20:REF1\n:23B:CRED\n:32A:250101USD1000,00"

def mtScenarioParsed : ParsedMessage :=
  { msg_type := "MT103",
    fields := [("20", some "REF1"), ("23B", some "CRED"), ("32A", some "250101USD1000,00")],
    checks := [] }

def missing50K : Finding :=
  { severity := "ERROR", code := "MISSING_MANDATORY", field := some "50K",
    message := "Missing mandatory field: 50K" }

def mtScenarioReport : Report :=
  { detected_type := "MT103", normalized_type := "mt103", extracted := mtScenarioParsed,
    issues := [missing50K], summary := { errors := 1, warnings := 0 } }

/-- The extraction of input that matches no format. -/
def unknownParsed : ParsedMessage :=
  { msg_type := "unknown", fields := [], checks := ["Unknown format"] }

def noRulesetUnknown : Finding :=
  { severity := "WARN", code := "NO_RULESET", field := none,
    message := "No ruleset found for message type: unknown" }

/-- `validate_message` on empty input with an empty rules table. -/
def unknownReport : Report :=
  { detected_type := "unknown", normalized_type := "unknown", extracted := unknownParsed,
    issues := [noRulesetUnknown], summary := { errors := 0, warnings := 1 } }

/-- `sr2026_assess` on empty input with empty rules and empty overlays. -/
def unknownSRReport : SRReport :=
  { sr_mode := "SR2026", detected_type := "unknown", normalized_type := "unknown",
    issues := [noRulesetUnknown], summary := { errors := 0, warnings := 1 },
    extracted := unknownParsed }

/-- A pacs.002 status report whose structured reason code is AC04. -/
def ac04StatusXml : String :=
  "<Document xmlns=\"urn:iso:std:iso:20022:tech:xsd:pacs.002.001.10\"><FIToFIPmtStsRpt><TxInfAndSts><TxSts>RJCT</TxSts><StsRsnInf><Rsn><Cd>AC04</Cd></Rsn></StsRsnInf></TxInfAndSts></FIToFIPmtStsRpt></Document>"

/-- The decide-path step of the generic checklist (the one generic action
that mentions resending). -/
def decidePathStep : String :=
  "3) Decide path: REPAIR/RESEND vs RETURN vs CANCEL (camt.056) based on scheme rules and bank procedures."

/-- A guidance overlay rule whose configured severity is ERROR. -/
def guidanceErrRule : Rule :=
  { rtype := some "guidance", rid := some "G1", severity := some "ERROR",
    message := some "remember the cut-off" }

/-- A rule whose type tag matches no recognized variant. -/
def bogusRule : Rule := { rtype := some "bogus", rid := some "R9" }

/-- A minimal report for exercising the overlay engine in isolation. -/
def emptyReport : Report :=
  { detected_type := "unknown", normalized_type := "unknown",
    extracted := { msg_type := "unknown", fields := [], checks := [] },
    issues := [], summary := { errors := 0, warnings := 0 } }

/-- A schema collaborator that accepts every parsed document. -/
def trivialSchema : XmlSchema := { validate := fun _ => true, error_log := [] }

/-! ### Helper lemmas -/

theorem isPrefixOf_append_self (p q : List Char) : p.isPrefixOf (p ++ q) = true := by
  induction p with
  | nil => simp [List.isPrefixOf]
  | cons c t ih => simp [List.isPrefixOf, ih]

theorem mem_check_mandatory (parsed : ParsedMessage) (l : List String) (f : String)
    (hf : f ∈ l) (hm : get_field parsed f = none) :
    ({ severity := "ERROR", code := "MISSING_MANDATORY", field := some f,
       message := "Missing mandatory field: " ++ f } : Finding) ∈ check_mandatory parsed l := by
  unfold check_mandatory
  rw [List.mem_filterMap]
  exact ⟨f, hf, by rw [hm]⟩

/-- The base rule engine's unknown-tag branch, in closed form. -/
theorem run_rule_unknown_tag (parsed : ParsedMessage) (r : Rule)
    (h1 : r.rtype ≠ some "regex_field") (h2 : r.rtype ≠ some "regex_optional")
    (h3 : r.rtype ≠ some "in_set") :
    run_rule parsed r = some
      { severity := "WARN", code := "UNKNOWN_RULE_TYPE", field := r.field,
        message := "Unknown rule type: " ++ pyShowOptStr r.rtype ++ " for rule "
          ++ r.rid.getD "RULE" } := by
  unfold run_rule
  simp only [if_neg h1, if_neg h2, if_neg h3]

/-- The overlay engine's guidance branch, in closed form. -/
theorem overlay_guidance_one (rep : Report) (r : Rule) (h : r.rtype = some "guidance") :
    apply_overlay_rules rep { rules := [r] } =
      [{ severity := r.severity.getD "WARN", code := r.rid.getD "SR2026_RULE", field := r.field,
         message := pyStrip (r.desc.getD "" ++ ": " ++ r.message.getD "") }] := by
  unfold apply_overlay_rules
  simp only [List.flatMap_cons, List.flatMap_nil, List.append_nil, if_pos h]

/-- The overlay engine's unknown-tag branch, in closed form. -/
theorem overlay_unknown_one (rep : Report) (r : Rule)
    (h1 : r.rtype ≠ some "guidance") (h2 : r.rtype ≠ some "in_set") :
    apply_overlay_rules rep { rules := [r] } =
      [{ severity := "WARN", code := "SR2026_UNKNOWN_RULE", field := r.field,
         message := "Unknown SR2026 rule type: " ++ pyShowOptStr r.rtype ++ " ("
           ++ r.rid.getD "SR2026_RULE" ++ ")" }] := by
  unfold apply_overlay_rules
  simp only [List.flatMap_cons, List.flatMap_nil, List.append_nil, if_neg h1, if_neg h2]

/-- The overlay engine distributes over concatenation of rule lists. -/
theorem apply_overlay_rules_append (rep : Report) (l1 l2 : List Rule) :
    apply_overlay_rules rep { rules := l1 ++ l2 } =
      apply_overlay_rules rep { rules := l1 } ++ apply_overlay_rules rep { rules := l2 } := by
  unfold apply_overlay_rules
  exact List.flatMap_append l1 l2 _

/-! ### Claim theorems -/

/-- C1: the claim says `detect_and_parse` returns a ParsedMessage for every
input without raising, degrading malformed input to the UNKNOWN kind with a
parser note.  The code contradicts this: on input containing `<` and
`pacs.008` but not well-formed as XML, `parse_pacs008` calls
`etree.fromstring` with no `try/except`, so the parse failure propagates out
of `detect_and_parse` (first conjunct); inputs matching no format do take
the degraded UNKNOWN path (second conjunct). -/
theorem C1_extraction_raises_on_malformed_pacs008 :
    detect_and_parse "<pacs.008" = Except.error "malformed start tag"
      ∧ detect_and_parse "" = Except.ok unknownParsed :=
  ⟨rfl, rfl⟩

/-- C4: the claim says the router `run_autopilot` never raises for any
input.  The code contradicts this: `"<pacs.008>"` is routed to the
pacs008_xml branch, whose `sr2026_assess` call reaches the uncaught
`etree.fromstring` failure inside `parse_pacs008`, which propagates out of
the router. -/
theorem C4_router_raises_on_malformed_pacs008_xml :
    run_autopilot [] [] none none "<pacs.008>" = Except.error "premature end of data" :=
  rfl

/-- C10: for any loadable schema and any input that fails XML parsing,
`validate_xml_against_xsd` returns `(false, errs)` where `errs` is the
single-element list whose entry starts with `XML_PARSE_ERROR:`, instead of
propagating the parse failure. -/
theorem C10_xsd_wrapper_catches_parse_error (schema : XmlSchema) (xml e : String)
    (h : fromstring xml = Except.error e) :
    validate_xml_against_xsd schema xml = (false, ["XML_PARSE_ERROR: " ++ e])
      ∧ strStartsWith ("XML_PARSE_ERROR: " ++ e) "XML_PARSE_ERROR:" = true := by
  constructor
  · unfold validate_xml_against_xsd
    rw [h]
  · show ("XML_PARSE_ERROR:".data).isPrefixOf (("XML_PARSE_ERROR: " ++ e).data) = true
    have h1 : ("XML_PARSE_ERROR: " ++ e).data = "XML_PARSE_ERROR:".data ++ (' ' :: e.data) := rfl
    rw [h1, isPrefixOf_append_self]

/-- Witness for C10 at a concrete unparsable input and concrete schema. -/
theorem C10_witness :
    validate_xml_against_xsd trivialSchema "<pacs.008"
        = (false, ["XML_PARSE_ERROR: " ++ "malformed start tag"])
      ∧ strStartsWith ("XML_PARSE_ERROR: " ++ "malformed start tag") "XML_PARSE_ERROR:" = true :=
  C10_xsd_wrapper_catches_parse_error trivialSchema "<pacs.008" "malformed start tag" rfl

/-- C5: whenever extraction succeeds and the normalized kind has no
registered ruleset, `validate_message` returns the report whose finding
sequence is exactly one WARN `NO_RULESET` finding, counted as 0 errors and
1 warning. -/
theorem C5_no_ruleset_single_warn (rules_all : Rules) (raw : String) (parsed : ParsedMessage)
    (h1 : detect_and_parse raw = Except.ok parsed)
    (h2 : rulesFind rules_all (normalize_msg_type parsed.msg_type) = none) :
    validate_message rules_all raw = Except.ok
      { detected_type := parsed.msg_type,
        normalized_type := normalize_msg_type parsed.msg_type,
        extracted := parsed,
        issues := [{ severity := "WARN", code := "NO_RULESET", field := none,
                     message := "No ruleset found for message type: " ++ parsed.msg_type }],
        summary := { errors := 0, warnings := 1 } }
    ∧ countSev [({ severity := "WARN", code := "NO_RULESET", field := none,
                   message := "No ruleset found for message type: " ++ parsed.msg_type } :
        Finding)] "ERROR" = 0
    ∧ countSev [({ severity := "WARN", code := "NO_RULESET", field := none,
                   message := "No ruleset found for message type: " ++ parsed.msg_type } :
        Finding)] "WARN" = 1 := by
  refine ⟨?_, by simp [countSev], by simp [countSev]⟩
  simp only [validate_message, h1]
  rw [h2]

/-- Witness for C5: empty input against an empty rules table. -/
theorem C5_witness :
    validate_message [] "" = Except.ok unknownReport
      ∧ countSev [noRulesetUnknown] "ERROR" = 0
      ∧ countSev [noRulesetUnknown] "WARN" = 1 :=
  C5_no_ruleset_single_warn [] "" unknownParsed rfl rfl

/-- C2: whenever `validate_message` evaluates a registered ruleset, every
field declared mandatory there that is missing or empty in the extracted
field map yields an ERROR `MISSING_MANDATORY` finding naming the field in
the report's finding sequence, whatever the other rules are. -/
theorem C2_missing_mandatory_always_reported (rules_all : Rules) (raw : String)
    (rep : Report) (rs : RuleSet) (f : String)
    (hv : validate_message rules_all raw = Except.ok rep)
    (hr : rulesFind rules_all rep.normalized_type = some rs)
    (hf : f ∈ rs.mandatory_fields)
    (hm : get_field rep.extracted f = none) :
    ({ severity := "ERROR", code := "MISSING_MANDATORY", field := some f,
       message := "Missing mandatory field: " ++ f } : Finding) ∈ rep.issues := by
  cases hdp : detect_and_parse raw with
  | error e =>
    simp only [validate_message, hdp] at hv
    exact Except.noConfusion hv
  | ok parsed =>
    simp only [validate_message, hdp] at hv
    cases hfind : rulesFind rules_all (normalize_msg_type parsed.msg_type) with
    | none =>
      simp only [hfind] at hv
      injection hv with h
      subst h
      dsimp only at hr
      rw [hfind] at hr
      exact Option.noConfusion hr
    | some ruleset =>
      simp only [hfind] at hv
      injection hv with h
      subst h
      dsimp only at hr hm ⊢
      rw [hfind] at hr
      injection hr with h2
      subst h2
      exact List.mem_append_left _ (List.mem_append_left _ (mem_check_mandatory parsed _ f hf hm))

/-- Witness for C2: the spec's legacy-text scenario, where `50K` is
mandatory but absent. -/
theorem C2_witness :
    ({ severity := "ERROR", code := "MISSING_MANDATORY", field := some "50K",
       message := "Missing mandatory field: " ++ "50K" } : Finding) ∈ mtScenarioReport.issues :=
  C2_missing_mandatory_always_reported mtScenarioRules mtScenarioRaw mtScenarioReport
    { mandatory_fields := ["20", "23B", "32A", "50K"], rules := [] } "50K"
    rfl rfl (by decide) rfl

/-- C3: the overlay assessment's finding sequence is the base validator's
finding sequence followed by the overlay-only findings, and when the
overlay document has no entry for the normalized kind the overlay stage
contributes exactly zero findings. -/
theorem C3_overlay_appends_after_base (rules_all : Rules) (overlays : Overlays) (raw : String)
    (base : Report) (hv : validate_message rules_all raw = Except.ok base) :
    ∀ sr, sr2026_assess rules_all overlays raw = Except.ok sr →
      sr.issues = base.issues
          ++ apply_overlay_rules base
              ((overlaysFind overlays base.normalized_type).getD { rules := [] })
        ∧ (overlaysFind overlays base.normalized_type = none → sr.issues = base.issues) := by
  intro sr hsr
  simp only [sr2026_assess, hv] at hsr
  injection hsr with h
  subst h
  dsimp only
  refine ⟨rfl, fun h0 => ?_⟩
  rw [h0]
  simp [apply_overlay_rules]

/-- Witness for C3: empty input, empty rules, empty overlays. -/
theorem C3_witness :
    unknownSRReport.issues = unknownReport.issues
        ++ apply_overlay_rules unknownReport
            ((overlaysFind [] unknownReport.normalized_type).getD { rules := [] })
      ∧ (overlaysFind [] unknownReport.normalized_type = none →
          unknownSRReport.issues = unknownReport.issues) :=
  C3_overlay_appends_after_base [] [] "" unknownReport rfl unknownSRReport rfl

/-- C7: every report either engine returns carries error and warning
counts that are exactly the number of findings with severity ERROR
(resp. WARN) in its finding sequence, including on the no-ruleset path. -/
theorem C7_counts_exact (rules_all : Rules) (overlays : Overlays) (raw : String) :
    (∀ rep, validate_message rules_all raw = Except.ok rep →
        rep.summary.errors = countSev rep.issues "ERROR"
          ∧ rep.summary.warnings = countSev rep.issues "WARN")
      ∧ (∀ sr, sr2026_assess rules_all overlays raw = Except.ok sr →
          sr.summary.errors = countSev sr.issues "ERROR"
            ∧ sr.summary.warnings = countSev sr.issues "WARN") := by
  constructor
  · intro rep hv
    cases hdp : detect_and_parse raw with
    | error e =>
      simp only [validate_message, hdp] at hv
      exact Except.noConfusion hv
    | ok parsed =>
      simp only [validate_message, hdp] at hv
      cases hfind : rulesFind rules_all (normalize_msg_type parsed.msg_type) with
      | none =>
        simp only [hfind] at hv
        injection hv with h
        subst h
        exact ⟨by simp [countSev], by simp [countSev]⟩
      | some ruleset =>
        simp only [hfind] at hv
        injection hv with h
        subst h
        exact ⟨rfl, rfl⟩
  · intro sr hsr
    cases hb : validate_message rules_all raw with
    | error e =>
      simp only [sr2026_assess, hb] at hsr
      exact Except.noConfusion hsr
    | ok base =>
      simp only [sr2026_assess, hb] at hsr
      injection hsr with h
      subst h
      exact ⟨rfl, rfl⟩

/-- Witness for C7 on the no-ruleset path of both engines. -/
theorem C7_witness :
    (unknownReport.summary.errors = countSev unknownReport.issues "ERROR"
        ∧ unknownReport.summary.warnings = countSev unknownReport.issues "WARN")
      ∧ (unknownSRReport.summary.errors = countSev unknownSRReport.issues "ERROR"
        ∧ unknownSRReport.summary.warnings = countSev unknownSRReport.issues "WARN") :=
  ⟨(C7_counts_exact [] [] "").1 unknownReport rfl,
   (C7_counts_exact [] [] "").2 unknownSRReport rfl⟩

/-- C6 counterexample: the claim says every rule of the Guidance variant
is emitted at the rule's configured severity by rule evaluation.  The base
rule engine (`run_rule`) has no guidance branch: on a guidance rule whose
configured severity is ERROR it emits a WARN `UNKNOWN_RULE_TYPE` finding,
not a finding at the configured severity. -/
theorem C6_counterexample :
    guidanceErrRule.severity = some "ERROR"
      ∧ run_rule { msg_type := "unknown", fields := [], checks := [] } guidanceErrRule
        = some { severity := "WARN", code := "UNKNOWN_RULE_TYPE", field := none,
                 message := "Unknown rule type: guidance for rule G1" }
      ∧ (run_rule { msg_type := "unknown", fields := [], checks := [] } guidanceErrRule).map
          Finding.severity ≠ some "ERROR" :=
  ⟨rfl, rfl, by decide⟩

/-- C6 (amended): in the overlay engine a guidance rule unconditionally
emits a finding at its configured severity (default WARN), independent of
any field values; the base rule engine does not recognize the guidance
tag and instead emits a WARN `UNKNOWN_RULE_TYPE` finding for it. -/
theorem C6_guidance_always_emits (rep : Report) (parsed : ParsedMessage)
    (rules : List Rule) (r : Rule) (hr : r ∈ rules) (ht : r.rtype = some "guidance") :
    ({ severity := r.severity.getD "WARN", code := r.rid.getD "SR2026_RULE", field := r.field,
       message := pyStrip (r.desc.getD "" ++ ": " ++ r.message.getD "") } : Finding)
      ∈ apply_overlay_rules rep { rules := rules }
    ∧ run_rule parsed r
      = some { severity := "WARN", code := "UNKNOWN_RULE_TYPE", field := r.field,
               message := "Unknown rule type: guidance for rule " ++ r.rid.getD "RULE" } := by
  constructor
  · unfold apply_overlay_rules
    rw [List.mem_flatMap]
    refine ⟨r, hr, ?_⟩
    simp [ht]
  · have h1 : r.rtype ≠ some "regex_field" := by rw [ht]; decide
    have h2 : r.rtype ≠ some "regex_optional" := by rw [ht]; decide
    have h3 : r.rtype ≠ some "in_set" := by rw [ht]; decide
    rw [run_rule_unknown_tag parsed r h1 h2 h3, ht]
    rfl

/-- Witness for C6 at a concrete guidance rule with configured severity ERROR. -/
theorem C6_witness :
    ({ severity := guidanceErrRule.severity.getD "WARN",
       code := guidanceErrRule.rid.getD "SR2026_RULE", field := guidanceErrRule.field,
       message := pyStrip (guidanceErrRule.desc.getD "" ++ ": "
         ++ guidanceErrRule.message.getD "") } : Finding)
      ∈ apply_overlay_rules emptyReport { rules := [guidanceErrRule] }
    ∧ run_rule unknownParsed guidanceErrRule
      = some { severity := "WARN", code := "UNKNOWN_RULE_TYPE", field := guidanceErrRule.field,
               message := "Unknown rule type: guidance for rule "
                 ++ guidanceErrRule.rid.getD "RULE" } :=
  C6_guidance_always_emits emptyReport unknownParsed [guidanceErrRule] guidanceErrRule
    (by decide) rfl

/-- C8 counterexample: the claim says every unrecognized rule tag yields a
WARN finding with code `UNKNOWN_RULE_TYPE`; the overlay engine instead
uses the code `SR2026_UNKNOWN_RULE` for its unrecognized tags. -/
theorem C8_counterexample :
    apply_overlay_rules emptyReport { rules := [bogusRule] }
      = [{ severity := "WARN", code := "SR2026_UNKNOWN_RULE", field := none,
           message := "Unknown SR2026 rule type: bogus (R9)" }]
    ∧ "SR2026_UNKNOWN_RULE" ≠ "UNKNOWN_RULE_TYPE" :=
  ⟨rfl, by decide⟩

/-- C8 (amended): an unrecognized rule tag degrades to a single WARN
finding naming the tag — code `UNKNOWN_RULE_TYPE` in the base engine and
`SR2026_UNKNOWN_RULE` in the overlay engine — and evaluation of the
remaining rules continues; the unrecognized rule never aborts the
evaluation and never produces an ERROR. -/
theorem C8_unknown_tags_degrade (parsed : ParsedMessage) (rep : Report)
    (pre post pre2 post2 : List Rule) (r r2 : Rule)
    (h1 : r.rtype ≠ some "regex_field") (h2 : r.rtype ≠ some "regex_optional")
    (h3 : r.rtype ≠ some "in_set")
    (h4 : r2.rtype ≠ some "guidance") (h5 : r2.rtype ≠ some "in_set") :
    (pre ++ r :: post).filterMap (run_rule parsed)
      = pre.filterMap (run_rule parsed)
        ++ { severity := "WARN", code := "UNKNOWN_RULE_TYPE", field := r.field,
             message := "Unknown rule type: " ++ pyShowOptStr r.rtype ++ " for rule "
               ++ r.rid.getD "RULE" }
          :: post.filterMap (run_rule parsed)
    ∧ apply_overlay_rules rep { rules := pre2 ++ r2 :: post2 }
      = apply_overlay_rules rep { rules := pre2 }
        ++ { severity := "WARN", code := "SR2026_UNKNOWN_RULE", field := r2.field,
             message := "Unknown SR2026 rule type: " ++ pyShowOptStr r2.rtype ++ " ("
               ++ r2.rid.getD "SR2026_RULE" ++ ")" }
          :: apply_overlay_rules rep { rules := post2 } := by
  constructor
  · rw [List.filterMap_append, List.filterMap_cons, run_rule_unknown_tag parsed r h1 h2 h3]
  · rw [apply_overlay_rules_append rep pre2 (r2 :: post2)]
    have hcons : apply_overlay_rules rep { rules := r2 :: post2 }
        = ({ severity := "WARN", code := "SR2026_UNKNOWN_RULE", field := r2.field,
             message := "Unknown SR2026 rule type: " ++ pyShowOptStr r2.rtype ++ " ("
               ++ r2.rid.getD "SR2026_RULE" ++ ")" } : Finding)
          :: apply_overlay_rules rep { rules := post2 } := by
      unfold apply_overlay_rules
      simp only [List.flatMap_cons, if_neg h4, if_neg h5, List.singleton_append]
    rw [hcons]

/-- Witness for C8 at the concrete unrecognized rule. -/
theorem C8_witness :
    ([] ++ bogusRule :: []).filterMap (run_rule unknownParsed)
      = [].filterMap (run_rule unknownParsed)
        ++ { severity := "WARN", code := "UNKNOWN_RULE_TYPE", field := bogusRule.field,
             message := "Unknown rule type: " ++ pyShowOptStr bogusRule.rtype ++ " for rule "
               ++ bogusRule.rid.getD "RULE" }
          :: [].filterMap (run_rule unknownParsed)
    ∧ apply_overlay_rules emptyReport { rules := [] ++ bogusRule :: [] }
      = apply_overlay_rules emptyReport { rules := [] }
        ++ { severity := "WARN", code := "SR2026_UNKNOWN_RULE", field := bogusRule.field,
             message := "Unknown SR2026 rule type: " ++ pyShowOptStr bogusRule.rtype ++ " ("
               ++ bogusRule.rid.getD "SR2026_RULE" ++ ")" }
          :: apply_overlay_rules emptyReport { rules := [] } :=
  C8_unknown_tags_degrade unknownParsed emptyReport [] [] [] [] bogusRule bogusRule
    (by decide) (by decide) (by decide) (by decide) (by decide)

/-- C9 counterexample: on a status report with structured reason code
AC04, `reason_meaning` is the knowledge-table meaning (first conjunct, as
the claim says), but the account-specific caution is inserted at index 3
of `recommended_actions` — after the generic decide-path instruction
mentioning RESEND at index 2, not before it as the claim states. -/
theorem C9_counterexample :
    (analyze_failure ac04StatusXml).map (fun r => r.overview.reason_meaning)
        = Except.ok (some "Account closed")
    ∧ (analyze_failure ac04StatusXml).map (fun r => r.recommended_next_actions)
        = Except.ok
          [ "1) Confirm exact status + reason from pacs.002 (GrpSts/TxSts + Rsn/Cd + AddtlInf).",
            "2) Correlate across logs using UETR + OrgnlMsgId/InstrId/EndToEndId (and internal reference).",
            decidePathStep,
            acctCaution,
            "4) If mapping issue suspected: reproduce in lower env with same payload, fix mapping, then follow controlled prod repair.",
            "5) Record a Jira defect: symptoms, exact code, impacted fields, proposed fix, evidence (logs + message copies)." ]
    ∧ strContains decidePathStep "RESEND" = true
    ∧ decidePathStep ≠ acctCaution :=
  ⟨rfl, rfl, by decide, by decide⟩

/-- C9 (amended): for a status report whose resolved reason code is AC04,
`reason_meaning` equals the knowledge-table meaning for AC04 ("Account
closed"), and `recommended_actions` is the generic checklist with the
account-specific caution inserted at position 3 — immediately after the
generic decide-path (repair/resend/return/cancel) step and before the
remaining generic steps. -/
theorem C9_ac04_meaning_and_actions (raw : String)
    (h : (analyze_failure raw).map (fun r => r.overview.reason_code)
      = Except.ok (some "AC04")) :
    (analyze_failure raw).map (fun r => r.overview.reason_meaning)
        = Except.ok ((codesGet "AC04").map (fun ci => ci.meaning))
    ∧ (analyze_failure raw).map (fun r => r.recommended_next_actions)
        = Except.ok (recommended_actions (some "AC04"))
    ∧ (recommended_actions (some "AC04")).get? 2 = some decidePathStep
    ∧ (recommended_actions (some "AC04")).get? 3 = some acctCaution := by
  cases hdp : detect_and_parse (pyStrip raw) with
  | error e =>
    simp only [analyze_failure, hdp, Except.map] at h
    exact Except.noConfusion h
  | ok parsed =>
    simp only [analyze_failure, hdp, Except.map, Except.ok.injEq] at h
    simp only [analyze_failure, hdp, Except.map, Except.ok.injEq]
    rw [h]
    exact ⟨rfl, rfl, rfl, rfl⟩

/-- Witness for C9 at the concrete AC04 status report. -/
theorem C9_witness :
    (analyze_failure ac04StatusXml).map (fun r => r.overview.reason_meaning)
        = Except.ok ((codesGet "AC04").map (fun ci => ci.meaning))
    ∧ (analyze_failure ac04StatusXml).map (fun r => r.recommended_next_actions)
        = Except.ok (recommended_actions (some "AC04"))
    ∧ (recommended_actions (some "AC04")).get? 2 = some decidePathStep
    ∧ (recommended_actions (some "AC04")).get? 3 = some acctCaution :=
  C9_ac04_meaning_and_actions ac04StatusXml rfl

end Payments
